import Mathlib

/-
Verification of the layered-configuration resolution pipeline of the pdm
repository (src/config.rs for the bitcoin-daemon domain and
src/p2poolv2_config_parser.rs for the p2pool pool-service domain).

Shallow embedding conventions:
  * Rust u16/u32/u64 fields are Nat (no arithmetic overflow occurs in the
    translated code paths), i32 is Int.
  * The f64 field difficulty_multiplier is only ever rendered with one
    decimal digit and compared against 1.0; it is embedded as an integer
    number of tenths (default 10 = 1.0).
  * External crates (bitcoin address parsing, secp256k1 public-key parsing,
    the config-rs source builder and serde deserialization) are abstracted
    as explicit function / value parameters, so every theorem quantifies
    over their behaviour; concrete instances are supplied for witnesses.
  * Fallible Rust code returning anyhow::Result is embedded as Except
    String (or an inductive error type where distinct error kinds matter).
-/

/-- Char-list test used to model str::starts_with: the second list is a
leading segment of the first.  (The library String.startsWith is
position-based and does not reduce in the kernel, so the model works on
the underlying character lists.) -/
def charsStartWith : List Char → List Char → Bool
  | _, [] => true
  | [], _ :: _ => false
  | c :: cs, p :: ps => (c == p) && charsStartWith cs ps

/-- Model of str::starts_with. -/
def strStartsWith (s pre : String) : Bool :=
  charsStartWith s.data pre.data

/-- Char-list substring test used to model str::contains. -/
def charsContain : List Char → List Char → Bool
  | [], needle => needle.isEmpty
  | c :: cs, needle => charsStartWith (c :: cs) needle || charsContain cs needle

/-- Model of str::is_empty. -/
def strIsEmpty (s : String) : Bool :=
  s.data.isEmpty

/-- ASCII lower-casing of one character. -/
def lowerAscii (c : Char) : Char :=
  if 65 ≤ c.toNat && c.toNat ≤ 90 then Char.ofNat (c.toNat + 32) else c

/-- Model of str::to_lowercase restricted to ASCII, which covers every
literal the translated code compares against. -/
def strToLower (s : String) : String :=
  String.mk (s.data.map lowerAscii)

/-- Model of Vec::join(", "). -/
def joinCommaSpace : List String → String
  | [] => ""
  | [s] => s
  | s :: rest => s ++ ", " ++ joinCommaSpace rest

namespace P2Pool

/-- Model of bitcoin::Network as used by the pool-service domain
(from_core_arg accepts main/test/signet/regtest; default is Signet). -/
inductive Network where
  | bitcoin
  | testnet
  | signet
  | regtest
deriving DecidableEq, Repr

/-- Lower-cased Debug rendering of a network, as produced by
format "{:?}" followed by to_lowercase in the flattener. -/
def Network.debugLower : Network → String
  | .bitcoin => "bitcoin"
  | .testnet => "testnet"
  | .signet => "signet"
  | .regtest => "regtest"

/-- Model of bitcoin::Address with the NetworkChecked marker: the address
string together with the network it was checked against.  The flattener
never reads the decoded form, so no more structure is needed. -/
structure CheckedAddress where
  addr : String
  net : Network
deriving DecidableEq, Repr

/-- Abstraction of the external address validation
(Address::from_str followed by require_network): some checked address on
success, none when the string is structurally invalid or belongs to a
different network.  Both failure cases are mapped by the source to the
same error message, so a single composite function is faithful. -/
abbrev AddrCheck : Type := String → Network → Option CheckedAddress

/-- Model of StratumConfig from src/p2poolv2_config_parser.rs.  The Rust
type carries a phantom state parameter (Raw / Parsed) that does not change
the stored data; the embedding uses a single structure for both states.
The three _parsed fields are populated by parse and cleared by the
From<StratumConfig<Parsed>> conversion. -/
structure StratumConfig where
  hostname : String
  port : Nat
  start_difficulty : Nat
  minimum_difficulty : Nat
  maximum_difficulty : Option Nat
  solo_address : Option String
  zmqpubhashblock : String
  bootstrap_address : Option String
  donation_address : Option String
  donation : Option Nat
  fee_address : Option String
  fee : Option Nat
  network : Network
  version_mask : Int
  difficulty_multiplier_tenths : Int
  ignore_difficulty : Option Bool
  pool_signature : Option String
  bootstrap_address_parsed : Option CheckedAddress
  donation_address_parsed : Option CheckedAddress
  fee_address_parsed : Option CheckedAddress
deriving DecidableEq, Repr

/-- Maximum pool signature length (MAX_POOL_SIGNATURE_LENGTH = 16). -/
def MAX_POOL_SIGNATURE_LENGTH : Nat := 16

/-- Common shape of the three address-validation blocks inside
StratumConfig::parse: an absent field validates to none, a present field
must pass the external check or the given error is returned. -/
def checkOptAddr (check : AddrCheck) (net : Network) (field : Option String)
    (errMsg : String) : Except String (Option CheckedAddress) :=
  match field with
  | none => .ok none
  | some s =>
    match check s net with
    | some a => .ok (some a)
    | none => .error errMsg

/-- Model of StratumConfig::<Raw>::parse: length check on pool_signature,
network-qualified validation of bootstrap_address, donation_address and
fee_address (in that order), dependent-field checks tying donation to
donation_address and fee to fee_address, and population of the three
_parsed fields.  Note that solo_address is never validated. -/
def StratumConfig.parse (check : AddrCheck) (c : StratumConfig) :
    Except String StratumConfig :=
  if (match c.pool_signature with
      | some sig => decide (sig.length > MAX_POOL_SIGNATURE_LENGTH)
      | none => false) then
    .error "Pool signature exceeds max length"
  else
    match checkOptAddr check c.network c.bootstrap_address
        "Invalid bootstrap_address" with
    | .error e => .error e
    | .ok bootstrap =>
      match checkOptAddr check c.network c.donation_address
          "Invalid donation_address" with
      | .error e => .error e
      | .ok donation =>
        if c.donation.isSome && donation.isNone then
          .error "donation_address is required when donation is set"
        else
          match checkOptAddr check c.network c.fee_address
              "Invalid fee_address" with
          | .error e => .error e
          | .ok fee =>
            if c.fee.isSome && fee.isNone then
              .error "fee_address is required when fee is set"
            else
              .ok { c with
                bootstrap_address_parsed := bootstrap
                donation_address_parsed := donation
                fee_address_parsed := fee }

/-- Model of the From<StratumConfig<Parsed>> for StratumConfig<Raw>
implementation: all seventeen configuration fields are copied and the
three _parsed fields are reset to None. -/
def StratumConfig.fromParsed (parsed : StratumConfig) : StratumConfig :=
  { hostname := parsed.hostname
    port := parsed.port
    start_difficulty := parsed.start_difficulty
    minimum_difficulty := parsed.minimum_difficulty
    maximum_difficulty := parsed.maximum_difficulty
    solo_address := parsed.solo_address
    zmqpubhashblock := parsed.zmqpubhashblock
    bootstrap_address := parsed.bootstrap_address
    donation_address := parsed.donation_address
    donation := parsed.donation
    fee_address := parsed.fee_address
    fee := parsed.fee
    network := parsed.network
    version_mask := parsed.version_mask
    difficulty_multiplier_tenths := parsed.difficulty_multiplier_tenths
    ignore_difficulty := parsed.ignore_difficulty
    pool_signature := parsed.pool_signature
    bootstrap_address_parsed := none
    donation_address_parsed := none
    fee_address_parsed := none }

/-- Model of NetworkConfig (libp2p-style limits; serde defaults d10/d50/…
are materialized by defaultNetworkConfig below). -/
structure NetworkConfig where
  listen_address : String
  dial_peers : List String
  max_pending_incoming : Nat
  max_pending_outgoing : Nat
  max_established_incoming : Nat
  max_established_outgoing : Nat
  max_established_per_peer : Nat
  max_workbase_per_second : Nat
  max_userworkbase_per_second : Nat
  max_miningshare_per_second : Nat
  max_inventory_per_second : Nat
  max_transaction_per_second : Nat
  rate_limit_window_secs : Nat
  max_requests_per_second : Nat
  peer_inactivity_timeout_secs : Nat
  dial_timeout_secs : Nat
deriving DecidableEq, Repr

/-- Serde defaults of NetworkConfig (default_listen_address, empty
dial_peers, d10/d10/d50/d50/d1/d10/d10/d100/d100/d100/d1/d1/d60/d30). -/
def defaultNetworkConfig : NetworkConfig :=
  { listen_address := "/ip4/0.0.0.0/tcp/6884"
    dial_peers := []
    max_pending_incoming := 10
    max_pending_outgoing := 10
    max_established_incoming := 50
    max_established_outgoing := 50
    max_established_per_peer := 1
    max_workbase_per_second := 10
    max_userworkbase_per_second := 10
    max_miningshare_per_second := 100
    max_inventory_per_second := 100
    max_transaction_per_second := 100
    rate_limit_window_secs := 1
    max_requests_per_second := 1
    peer_inactivity_timeout_secs := 60
    dial_timeout_secs := 30 }

/-- Model of StoreConfig (path is required; the other two fields default to
1 and 7). -/
structure StoreConfig where
  path : String
  background_task_frequency_hours : Nat
  pplns_ttl_days : Nat
deriving DecidableEq, Repr

/-- Model of MinerConfig. -/
structure MinerConfig where
  pubkey : String
deriving DecidableEq, Repr

/-- Model of BitcoinRpcConfig. -/
structure BitcoinRpcConfig where
  url : String
  username : String
  password : String
deriving DecidableEq, Repr

/-- Model of LoggingConfig (level defaults to "info", stats_dir to
"./logs/stats"). -/
structure LoggingConfig where
  file : Option String
  level : String
  stats_dir : String
deriving DecidableEq, Repr

/-- Serde defaults of LoggingConfig. -/
def defaultLoggingConfig : LoggingConfig :=
  { file := none, level := "info", stats_dir := "./logs/stats" }

/-- Model of ApiConfig. -/
structure ApiConfig where
  hostname : String
  port : Nat
  auth_user : Option String
  auth_token : Option String
deriving DecidableEq, Repr

/-- Model of P2PoolConfig: the top-level deserialization target; network
and logging fall back to serde defaults, every other section is optional. -/
structure P2PoolConfig where
  network : NetworkConfig
  store : Option StoreConfig
  stratum : Option StratumConfig
  miner : Option MinerConfig
  bitcoinrpc : Option BitcoinRpcConfig
  logging : LoggingConfig
  api : Option ApiConfig
deriving DecidableEq, Repr

/-- Output entry of the pool-service flattener (the UI model struct
ConfigEntry of src/p2poolv2_config_parser.rs); the Rust field "section" is
a Lean keyword and is embedded as sect. -/
structure ConfigEntry where
  sect : String
  key : String
  value : String
  is_default : Bool
deriving DecidableEq, Repr

/-- Model of the helper opt: emit one entry when the optional value is
present, nothing otherwise (values are pre-rendered to String by map at
the call sites, mirroring the ToString bound). -/
def opt (s k : String) (v : Option String) (d : Bool) : List ConfigEntry :=
  match v with
  | some v => [⟨s, k, v, d⟩]
  | none => []

/-- Two-digit zero-padded rendering of a value below 100 (the fractional
part of the percentage display). -/
def pad2 (r : Nat) : String :=
  if r < 10 then "0" ++ toString r else toString r

/-- Basis-point display used for donation and fee: v as f64 / 100.0 has
zero fractional part exactly when 100 divides v, giving "{v} bp ({p}%)"
with zero decimals, otherwise two decimals.  Rounding f64 v / 100.0 to two
decimals recovers v % 100 exactly for every u16 v. -/
def bpRender (v : Nat) : String :=
  if v % 100 == 0 then
    toString v ++ " bp (" ++ toString (v / 100) ++ "%)"
  else
    toString v ++ " bp (" ++ toString (v / 100) ++ "." ++ pad2 (v % 100) ++ "%)"

/-- Lower-case zero-padded 8-digit hex rendering of an i32
(format "{:08x}"; negative values print their two's complement). -/
def hex8 (v : Int) : String :=
  let n := (v % (2 ^ 32)).toNat
  let s := String.mk (Nat.toDigits 16 n)
  String.mk (List.replicate (8 - s.length) '0') ++ s

/-- One-decimal rendering of the difficulty multiplier
(format "{:.1}" on the f64, embedded as tenths). -/
def tenthsRender (m : Int) : String :=
  toString (m / 10) ++ "." ++ toString (m % 10)

/-- NETWORK block of the flattener: every entry built through the n! macro
whose is_default is (not network_section_present) combined with the
field's default test; max_established_per_peer repeats the section flag at
its call site, so the macro expansion doubles it. -/
def networkEntries (n : NetworkConfig) (networkSectionPresent : Bool) :
    List ConfigEntry :=
  [⟨"network", "listen_address", n.listen_address,
      !networkSectionPresent && strIsEmpty n.listen_address⟩,
   ⟨"network", "dial_peers", joinCommaSpace n.dial_peers,
      !networkSectionPresent && n.dial_peers.isEmpty⟩,
   ⟨"network", "max_pending_incoming", toString n.max_pending_incoming,
      !networkSectionPresent && (n.max_pending_incoming == 10)⟩,
   ⟨"network", "max_pending_outgoing", toString n.max_pending_outgoing,
      !networkSectionPresent && (n.max_pending_outgoing == 10)⟩,
   ⟨"network", "max_established_incoming", toString n.max_established_incoming,
      !networkSectionPresent && (n.max_established_incoming == 50)⟩,
   ⟨"network", "max_established_outgoing", toString n.max_established_outgoing,
      !networkSectionPresent && (n.max_established_outgoing == 50)⟩,
   ⟨"network", "max_established_per_peer", toString n.max_established_per_peer,
      !networkSectionPresent
        && (!networkSectionPresent && (n.max_established_per_peer == 1))⟩,
   ⟨"network", "max_workbase_per_second", toString n.max_workbase_per_second,
      !networkSectionPresent && (n.max_workbase_per_second == 10)⟩,
   ⟨"network", "max_userworkbase_per_second",
      toString n.max_userworkbase_per_second,
      !networkSectionPresent && (n.max_userworkbase_per_second == 10)⟩,
   ⟨"network", "max_miningshare_per_second",
      toString n.max_miningshare_per_second,
      !networkSectionPresent && (n.max_miningshare_per_second == 100)⟩,
   ⟨"network", "max_inventory_per_second", toString n.max_inventory_per_second,
      !networkSectionPresent && (n.max_inventory_per_second == 100)⟩,
   ⟨"network", "max_transaction_per_second",
      toString n.max_transaction_per_second,
      !networkSectionPresent && (n.max_transaction_per_second == 100)⟩,
   ⟨"network", "rate_limit_window_secs", toString n.rate_limit_window_secs,
      !networkSectionPresent && (n.rate_limit_window_secs == 1)⟩,
   ⟨"network", "max_requests_per_second", toString n.max_requests_per_second,
      !networkSectionPresent && (n.max_requests_per_second == 1)⟩,
   ⟨"network", "peer_inactivity_timeout_secs",
      toString n.peer_inactivity_timeout_secs,
      !networkSectionPresent && (n.peer_inactivity_timeout_secs == 60)⟩,
   ⟨"network", "dial_timeout_secs", toString n.dial_timeout_secs,
      !networkSectionPresent && (n.dial_timeout_secs == 30)⟩]

/-- STORE block of the flattener: the s_store! macro passes the default
test straight through, with no section-present flag. -/
def storeEntries : Option StoreConfig → List ConfigEntry
  | none => []
  | some s =>
    [⟨"store", "path", s.path, s.path == "./store.db"⟩,
     ⟨"store", "background_task_frequency_hours",
        toString s.background_task_frequency_hours,
        s.background_task_frequency_hours == 1⟩,
     ⟨"store", "pplns_ttl_days", toString s.pplns_ttl_days,
        s.pplns_ttl_days == 7⟩]

/-- STRATUM block of the flattener: stratum_m! entries combine
(not stratum_section_present) with the default test; optional fields go
through opt with is_default fixed to false. -/
def stratumEntries (stratumSectionPresent : Bool) :
    Option StratumConfig → List ConfigEntry
  | none => []
  | some st =>
    [⟨"stratum", "hostname", st.hostname,
        !stratumSectionPresent && (st.hostname == "0.0.0.0")⟩,
     ⟨"stratum", "port", toString st.port,
        !stratumSectionPresent && (st.port == 3333)⟩,
     ⟨"stratum", "start_difficulty", toString st.start_difficulty,
        !stratumSectionPresent && (st.start_difficulty == 10000)⟩,
     ⟨"stratum", "minimum_difficulty", toString st.minimum_difficulty,
        !stratumSectionPresent && (st.minimum_difficulty == 100)⟩]
    ++ opt "stratum" "maximum_difficulty"
        (st.maximum_difficulty.map toString) false
    ++ opt "stratum" "solo_address" st.solo_address false
    ++ [⟨"stratum", "zmqpubhashblock", st.zmqpubhashblock,
          !stratumSectionPresent
            && (st.zmqpubhashblock == "tcp://127.0.0.1:28332")⟩]
    ++ opt "stratum" "bootstrap_address" st.bootstrap_address false
    ++ opt "stratum" "donation_address" st.donation_address false
    ++ opt "stratum" "donation" (st.donation.map bpRender) false
    ++ opt "stratum" "fee_address" st.fee_address false
    ++ opt "stratum" "fee" (st.fee.map bpRender) false
    ++ [⟨"stratum", "network", st.network.debugLower,
          !stratumSectionPresent && (st.network == Network.signet)⟩,
        ⟨"stratum", "version_mask", hex8 st.version_mask,
          !stratumSectionPresent && (st.version_mask == 0x1fffe000)⟩,
        ⟨"stratum", "difficulty_multiplier",
          tenthsRender st.difficulty_multiplier_tenths,
          !stratumSectionPresent && (st.difficulty_multiplier_tenths == 10)⟩]
    ++ opt "stratum" "ignore_difficulty"
        (st.ignore_difficulty.map toString) false
    ++ opt "stratum" "pool_signature" st.pool_signature false

/-- MINER block of the flattener: the external compressed-public-key
parse (secp256k1 PublicKey::from_str) is abstracted as pubkeyValid; on
failure the sentinel "<invalid pubkey>" is substituted, is_default is
always false. -/
def minerEntries (pubkeyValid : String → Bool) (m? : Option MinerConfig) :
    List ConfigEntry :=
  match m? with
  | none => []
  | some m =>
    if !pubkeyValid m.pubkey then
      [⟨"miner", "pubkey", "<invalid pubkey>", false⟩]
    else
      [⟨"miner", "pubkey", m.pubkey, false⟩]

/-- BITCOIN RPC block of the flattener: the b_m! macro passes the default
test straight through (no section flag); the password renders "<empty>"
when empty and "*****" otherwise, with is_default false. -/
def bitcoinrpcEntries : Option BitcoinRpcConfig → List ConfigEntry
  | none => []
  | some b =>
    [⟨"bitcoinrpc", "url", b.url, b.url == "http://127.0.0.1:38332"⟩,
     ⟨"bitcoinrpc", "username", b.username, b.username == "p2pool"⟩,
     ⟨"bitcoinrpc", "password",
        if strIsEmpty b.password then "<empty>" else "*****", false⟩]

/-- LOGGING block of the flattener: file goes through opt with false;
level and stats_dir combine (not logging_section_present) with the
default test. -/
def loggingEntries (l : LoggingConfig) (loggingSectionPresent : Bool) :
    List ConfigEntry :=
  opt "logging" "file" l.file false
  ++ [⟨"logging", "level", l.level,
        !loggingSectionPresent && (l.level == "info")⟩,
      ⟨"logging", "stats_dir", l.stats_dir,
        !loggingSectionPresent && (l.stats_dir == "./logs/stats")⟩]

/-- API block of the flattener: the a_m! macro passes the default test
straight through (no section flag); auth_token is mapped to the constant
mask "*****" whenever present. -/
def apiEntries : Option ApiConfig → List ConfigEntry
  | none => []
  | some a =>
    [⟨"api", "hostname", a.hostname, a.hostname == "127.0.0.1"⟩,
     ⟨"api", "port", toString a.port, false⟩]
    ++ opt "api" "auth_user" a.auth_user false
    ++ opt "api" "auth_token" (a.auth_token.map (fun _ => "*****")) false

/-- Model of the flatten function: the seven section blocks in source
order.  It consumes the raw (unparsed) P2PoolConfig together with the
three section-present flags computed from the raw file text. -/
def flatten (pubkeyValid : String → Bool) (p : P2PoolConfig)
    (networkSectionPresent stratumSectionPresent loggingSectionPresent : Bool) :
    List ConfigEntry :=
  networkEntries p.network networkSectionPresent
  ++ storeEntries p.store
  ++ stratumEntries stratumSectionPresent p.stratum
  ++ minerEntries pubkeyValid p.miner
  ++ bitcoinrpcEntries p.bitcoinrpc
  ++ loggingEntries p.logging loggingSectionPresent
  ++ apiEntries p.api

/-- Substring containment, the model of str::contains used on the raw file
text. -/
def containsSub (hay needle : String) : Bool :=
  charsContain hay.data needle.data

/-- Model of the env_override_present computation: some process
environment variable starts with "P2POOL_". -/
def envOverridePresent (env : List (String × String)) : Bool :=
  env.any (fun kv => strStartsWith kv.1 "P2POOL_")

/-- Model of the looks_like_p2pool test: an environment override exists or
the raw file text contains one of the seven recognized section markers. -/
def looksLikeP2pool (rawText : String) (envPresent : Bool) : Bool :=
  envPresent
  || containsSub rawText "[stratum]"
  || containsSub rawText "[store]"
  || containsSub rawText "[network]"
  || containsSub rawText "[logging]"
  || containsSub rawText "[api]"
  || containsSub rawText "[miner]"
  || containsSub rawText "[bitcoinrpc]"

/-- Error kinds of the pool-service parse_config, one constructor per
distinct failure site: the domain-mismatch rejection ("Invalid P2Pool
config: not a p2pool configuration"), a config-rs build failure, a serde
deserialization failure ("Failed to deserialize config: …"), and a
semantic validation failure raised by StratumConfig::parse. -/
inductive PoolError where
  | notP2pool
  | buildFailed (msg : String)
  | deserializeFailed (msg : String)
  | validation (msg : String)
deriving DecidableEq, Repr

/-- Per-source key lookup of the config-rs model: first pair with the
given key. -/
def lookupKV (src : List (String × String)) (k : String) : Option String :=
  (src.find? (fun kv => kv.1 == k)).map (fun kv => kv.2)

/-- Model of config-rs ConfigBuilder merging: sources are listed in the
order they were added and a source added later takes precedence over
every earlier one for each key it defines. -/
def buildLookup : List (List (String × String)) → String → Option String
  | [], _ => none
  | s :: rest, k =>
    match buildLookup rest k with
    | some v => some v
    | none => lookupKV s k

/-- Source order of the pool-service builder (lines 335-339): the file
source when the path exists, then always the P2POOL-prefixed environment
source.  Environment keys are taken already prefix-stripped, lower-cased
and separator-joined into field paths, the transformation
Environment::with_prefix("P2POOL").separator("_") performs. -/
def p2poolSources (fileExists : Bool) (fileSrc envSrc : List (String × String)) :
    List (List (String × String)) :=
  (if fileExists then [fileSrc] else []) ++ [envSrc]

/-- Model of the pool-service parse_config.  External steps are explicit
parameters: buildResult is the outcome of cfg.build() and deser the
outcome of try_deserialize (both from the config-rs and serde crates).
The pipeline: read raw text, reject non-p2pool inputs, build, deserialize,
validate the stratum section (result discarded), then flatten the RAW
config with the three section-present flags recomputed from the text. -/
def parse_config (check : AddrCheck) (pubkeyValid : String → Bool)
    (rawText : String) (env : List (String × String))
    (buildResult : Except String Unit) (deser : Except String P2PoolConfig) :
    Except PoolError (List ConfigEntry) :=
  if !looksLikeP2pool rawText (envOverridePresent env) then
    .error .notP2pool
  else
    match buildResult with
    | .error m => .error (.buildFailed m)
    | .ok _ =>
      match deser with
      | .error m => .error (.deserializeFailed m)
      | .ok p =>
        match (match p.stratum with
               | some st => (st.parse check).map (fun _ => ())
               | none => Except.ok ()) with
        | .error m => .error (.validation m)
        | .ok _ =>
          .ok (flatten pubkeyValid p
            (containsSub rawText "[network]")
            (containsSub rawText "[stratum]")
            (containsSub rawText "[logging]"))

/-- Serde defaults of StratumConfig (default_hostname, default_stratum_port,
default_start_difficulty, default_minimum_difficulty,
default_zmqpubhashblock, default_network, default_version_mask,
default_difficulty_multiplier; optional fields absent). -/
def defaultStratumConfig : StratumConfig :=
  { hostname := "0.0.0.0"
    port := 3333
    start_difficulty := 10000
    minimum_difficulty := 100
    maximum_difficulty := none
    solo_address := none
    zmqpubhashblock := "tcp://127.0.0.1:28332"
    bootstrap_address := none
    donation_address := none
    donation := none
    fee_address := none
    fee := none
    network := .signet
    version_mask := 0x1fffe000
    difficulty_multiplier_tenths := 10
    ignore_difficulty := none
    pool_signature := none
    bootstrap_address_parsed := none
    donation_address_parsed := none
    fee_address_parsed := none }

/-- Concrete instance of the external address check used to evaluate
theorems on concrete inputs: accepts strings with the signet bech32
prefix on the signet network only. -/
def exCheck : AddrCheck := fun s n =>
  if strStartsWith s "tb1" && (n == Network.signet) then some ⟨s, n⟩ else none

/-- Stratum section whose solo_address is present but fails exCheck. -/
def exSoloConfig : StratumConfig :=
  { defaultStratumConfig with solo_address := some "invalid" }

/-- Stratum section whose bootstrap_address is present but fails exCheck. -/
def exBootConfig : StratumConfig :=
  { defaultStratumConfig with bootstrap_address := some "invalid" }

/-- Pool config whose store section restates every store default. -/
def exStoreConfig : P2PoolConfig :=
  { network := defaultNetworkConfig
    store := some ⟨"./store.db", 1, 7⟩
    stratum := none
    miner := none
    bitcoinrpc := none
    logging := defaultLoggingConfig
    api := none }

/-- Raw file text of a config whose store section restates the default
path (the text the section-present test is evaluated on). -/
def exStoreText : String := "[store]\npath = \"./store.db\"\n"

/-- Api section carrying an empty auth_token. -/
def exApiEmptyToken : ApiConfig := ⟨"127.0.0.1", 46884, none, some ""⟩

/-- Pool config with a miner section whose pubkey is rejected by any
validator returning false. -/
def exMinerConfig : P2PoolConfig :=
  { exStoreConfig with miner := some ⟨"nonsense"⟩ }

/-- Two pool configs differing only in secret content: non-empty rpc
passwords of different lengths and different present auth tokens. -/
def exSecretA : P2PoolConfig :=
  { network := defaultNetworkConfig
    store := none
    stratum := none
    miner := none
    bitcoinrpc := some ⟨"http://127.0.0.1:38332", "p2pool", "hunter2"⟩
    logging := defaultLoggingConfig
    api := some ⟨"127.0.0.1", 46884, some "admin", some "token-one"⟩ }

/-- Second component of the secret-noninterference pair. -/
def exSecretB : P2PoolConfig :=
  { network := defaultNetworkConfig
    store := none
    stratum := none
    miner := none
    bitcoinrpc := some ⟨"http://127.0.0.1:38332", "p2pool", "correct horse battery staple"⟩
    logging := defaultLoggingConfig
    api := some ⟨"127.0.0.1", 46884, some "admin", some "t2"⟩ }

/-- Pool config embedding exBootConfig as its stratum section. -/
def exBootPool : P2PoolConfig :=
  { exStoreConfig with stratum := some exBootConfig }

/-- Raw file text of a config consisting of a miner section with an
unparseable pubkey. -/
def exMinerText : String := "[miner]\npubkey = \"nonsense\"\n"

/-- Secret-insensitive equivalence on the bitcoinrpc section: equal
non-secret fields and passwords empty together or non-empty together. -/
def rpcSecretEquiv : Option BitcoinRpcConfig → Option BitcoinRpcConfig → Prop
  | none, none => True
  | some b, some b' =>
    b.url = b'.url ∧ b.username = b'.username
      ∧ strIsEmpty b.password = strIsEmpty b'.password
  | _, _ => False

/-- Secret-insensitive equivalence on the api section: equal non-secret
fields and auth tokens present together or absent together. -/
def apiSecretEquiv : Option ApiConfig → Option ApiConfig → Prop
  | none, none => True
  | some a, some a' =>
    a.hostname = a'.hostname ∧ a.port = a'.port ∧ a.auth_user = a'.auth_user
      ∧ a.auth_token.isSome = a'.auth_token.isSome
  | _, _ => False

end P2Pool

namespace Daemon

/-- Scalar value of the config-rs store, as built from the INI file of the
daemon domain.  Floats are carried as their decimal rendering, since the
translated code only ever re-renders them with to_string. -/
inductive CVal where
  | str (s : String)
  | bool (b : Bool)
  | int (i : Int)
  | float (lit : String)
deriving DecidableEq, Repr

/-- Model of config-rs get_string / into_string: string coercion succeeds
on every scalar value (booleans render "true"/"false", integers render in
decimal, floats render their literal). -/
def getString : CVal → Option String
  | .str s => some s
  | .bool b => some (toString b)
  | .int i => some (toString i)
  | .float lit => some lit

/-- Model of config-rs into_bool on strings: case-insensitive
1/true/on/yes and 0/false/off/no. -/
def parseBoolLit (s : String) : Option Bool :=
  match strToLower s with
  | "1" => some true
  | "true" => some true
  | "on" => some true
  | "yes" => some true
  | "0" => some false
  | "false" => some false
  | "off" => some false
  | "no" => some false
  | _ => none

/-- Model of config-rs get_bool / into_bool.  In every translated call
site this getter runs only after getString failed, which never happens on
a scalar, so the float arm (dead code) is left unconverted. -/
def getBool : CVal → Option Bool
  | .str s => parseBoolLit s
  | .bool b => some b
  | .int i => some (decide (i ≠ 0))
  | .float _ => none

/-- Model of config-rs get_int / into_int; like getBool it is dead code
after getString in the translated call sites. -/
def getInt : CVal → Option Int
  | .str s => s.toInt?
  | .bool b => some (if b then 1 else 0)
  | .int i => some i
  | .float _ => none

/-- Model of config-rs get_float, already rendered; dead code after
getString in the translated call sites. -/
def getFloat : CVal → Option String
  | .float lit => some lit
  | .int i => some (toString i)
  | _ => none

/-- The built daemon configuration: a flat map from full dotted key paths
(for example "test.maxconnections") to scalar values. -/
abbrev DCfg := List (String × CVal)

/-- Path lookup in the built configuration. -/
def getVal (cfg : DCfg) (k : String) : Option CVal :=
  (cfg.find? (fun kv => kv.1 == k)).map (fun kv => kv.2)

/-- The fixed scope order of the daemon resolver (line 115):
unscoped/global first, then main, test, signet, regtest. -/
def dSections : List String := ["", "main", "test", "signet", "regtest"]

/-- Lookup key for a schema key under a scope (lines 140-144): the bare
key for the global scope, "section.key" otherwise. -/
def lookupKeyFor (sect key : String) : String :=
  if sect == "" then key else sect ++ "." ++ key

/-- The per-scope getter cascade of the schema loop (lines 146-176):
get_string, then get_bool rendered "1"/"0", then get_int rendered in
decimal, then get_float rendered by to_string — first success wins.  The
unknown-keys loop (lines 189-198) repeats the identical cascade at the
global scope. -/
def resolveInSection (cfg : DCfg) (lk : String) : Option String :=
  match (getVal cfg lk).bind getString with
  | some s => some s
  | none =>
    match (getVal cfg lk).bind getBool with
    | some b => some (if b then "1" else "0")
    | none =>
      match (getVal cfg lk).bind getInt with
      | some i => some (toString i)
      | none => (getVal cfg lk).bind getFloat

/-- Iteration over the scope list with early break (the for loop of lines
139-177): the first scope whose lookup succeeds provides the value. -/
def resolveAcross (cfg : DCfg) (key : String) : List String → Option String
  | [] => none
  | sect :: rest =>
    match resolveInSection cfg (lookupKeyFor sect key) with
    | some v => some v
    | none => resolveAcross cfg key rest

/-- Modelled from the spec: the SchemaEntry struct and the schema registry
(get_default_schema / schema_list) are not under src/, only their uses in
src/config.rs are.  Spec section 3: key, default value, expected kind;
the resolution code reads only key and default. -/
structure SchemaEntry where
  key : String
  default : String
deriving DecidableEq, Repr

/-- Modelled from the spec: the daemon-domain ConfigEntry struct is not
under src/, only its construction sites in src/config.rs are.  Spec
section 3 gives key, value and enabled; the construction sites also fill
a schema field (None for keys unknown to the schema). -/
structure ConfigEntry where
  key : String
  value : String
  schema : Option SchemaEntry
  enabled : Bool
deriving DecidableEq, Repr

/-- One iteration of the schema loop (lines 134-185): resolve the key
across the scope order; on success the entry carries the resolved value
with enabled true, otherwise the schema default with enabled false. -/
def schemaEntryFor (cfg : DCfg) (sch : SchemaEntry) : ConfigEntry :=
  match resolveAcross cfg sch.key dSections with
  | some v => ⟨sch.key, v, some sch, true⟩
  | none => ⟨sch.key, sch.default, some sch, false⟩

/-- Display value of a schema-less key (lines 189-198): the same
string/bool/int/float getter cascade at the global scope, falling back to
the empty string when every getter fails. -/
def unknownValue (cfg : DCfg) (k : String) : String :=
  (resolveInSection cfg k).getD ""

/-- The found_keys set: schema keys that resolved in some scope. -/
def foundKeys (cfg : DCfg) (schemaList : List SchemaEntry) : List String :=
  (schemaList.filter (fun sch => (resolveAcross cfg sch.key dSections).isSome)).map
    (fun sch => sch.key)

/-- The unknown-keys loop (lines 187-207): every collected config key not
claimed by the schema loop is appended with schema None and enabled true.
The Rust config_keys is a HashSet whose iteration order is unspecified;
the model takes the iteration order as the explicit list configKeys. -/
def unknownEntries (cfg : DCfg) (schemaList : List SchemaEntry)
    (configKeys : List String) : List ConfigEntry :=
  (configKeys.filter (fun k => !(foundKeys cfg schemaList).contains k)).map
    (fun k => ⟨k, unknownValue cfg k, none, true⟩)

/-- Model of the daemon parse_config (src/config.rs).  buildResult is the
outcome of the config-rs builder on the INI file: when it fails, the
function returns Ok with the full schema-default list (every entry
enabled false) instead of propagating the error; a missing file yields an
empty successful build.  The Rust signature returns Result but no branch
returns Err. -/
def parse_config (schemaList : List SchemaEntry)
    (buildResult : Except String DCfg) (configKeys : List String) :
    List ConfigEntry :=
  match buildResult with
  | .error _ =>
    schemaList.map (fun sch => ⟨sch.key, sch.default, some sch, false⟩)
  | .ok cfg =>
    schemaList.map (schemaEntryFor cfg) ++ unknownEntries cfg schemaList configKeys

/-- Helper recognizers for the spec-side display order of claim C7. -/
def isDigitString (s : String) : Bool :=
  !strIsEmpty s && s.data.all Char.isDigit

/-- Decimal float literal: optional sign, digits, optional fraction. -/
def isDecimalLit (s : String) : Bool :=
  let t := if s.startsWith "-" || s.startsWith "+" then s.drop 1 else s
  match t.splitOn "." with
  | [a] => isDigitString a
  | [a, b] => isDigitString a && isDigitString b
  | _ => false

/-- Modelled from the spec (claim C7, spec section 4.2): decide the
display value of a schema-less key by attempting boolean, then integer,
then float, then falling back to the raw string, first success winning.
Booleans display with the code's own "1"/"0" convention; a float literal
re-renders as itself in this model, so the float branch and the raw
fallback coincide textually. -/
def specUnknownDisplay (raw : String) : String :=
  match parseBoolLit raw with
  | some b => if b then "1" else "0"
  | none =>
    match raw.toInt? with
    | some i => toString i
    | none => if isDecimalLit raw then raw else raw

end Daemon

namespace P2Pool

/-- Membership in an opt block determines the section, default flag and
that the optional value was present with the entry's value. -/
theorem mem_opt_iff {e : ConfigEntry} {s k : String} {v : Option String}
    {d : Bool} : e ∈ opt s k v d ↔ ∃ x, v = some x ∧ e = ⟨s, k, x, d⟩ := by
  cases v <;> simp [opt]

/-- C10: the From conversion from the Parsed state back to the Raw state
copies all seventeen configuration fields unchanged and resets the three
derived _parsed fields to None. -/
theorem c10_fromParsed_frame (p : StratumConfig) :
    (StratumConfig.fromParsed p).hostname = p.hostname
    ∧ (StratumConfig.fromParsed p).port = p.port
    ∧ (StratumConfig.fromParsed p).start_difficulty = p.start_difficulty
    ∧ (StratumConfig.fromParsed p).minimum_difficulty = p.minimum_difficulty
    ∧ (StratumConfig.fromParsed p).maximum_difficulty = p.maximum_difficulty
    ∧ (StratumConfig.fromParsed p).solo_address = p.solo_address
    ∧ (StratumConfig.fromParsed p).zmqpubhashblock = p.zmqpubhashblock
    ∧ (StratumConfig.fromParsed p).bootstrap_address = p.bootstrap_address
    ∧ (StratumConfig.fromParsed p).donation_address = p.donation_address
    ∧ (StratumConfig.fromParsed p).donation = p.donation
    ∧ (StratumConfig.fromParsed p).fee_address = p.fee_address
    ∧ (StratumConfig.fromParsed p).fee = p.fee
    ∧ (StratumConfig.fromParsed p).network = p.network
    ∧ (StratumConfig.fromParsed p).version_mask = p.version_mask
    ∧ (StratumConfig.fromParsed p).difficulty_multiplier_tenths
        = p.difficulty_multiplier_tenths
    ∧ (StratumConfig.fromParsed p).ignore_difficulty = p.ignore_difficulty
    ∧ (StratumConfig.fromParsed p).pool_signature = p.pool_signature
    ∧ (StratumConfig.fromParsed p).bootstrap_address_parsed = none
    ∧ (StratumConfig.fromParsed p).donation_address_parsed = none
    ∧ (StratumConfig.fromParsed p).fee_address_parsed = none :=
  ⟨rfl, rfl, rfl, rfl, rfl, rfl, rfl, rfl, rfl, rfl, rfl, rfl, rfl, rfl, rfl,
   rfl, rfl, rfl, rfl, rfl⟩

/-- C4: in the pool-service builder the environment source is added after
the file source, so for every key defined by the environment the merged
lookup returns the environment value, whatever the file contains and
whether or not the file exists. -/
theorem c4_env_overrides_file (fileExists : Bool)
    (fileSrc envSrc : List (String × String)) (k v : String)
    (h : lookupKV envSrc k = some v) :
    buildLookup (p2poolSources fileExists fileSrc envSrc) k = some v := by
  cases fileExists <;> simp [p2poolSources, buildLookup, h]

/-- C4 witness: with the stratum port set to 3333 by the file and 9999 by
the environment, the merged lookup yields 9999. -/
theorem c4_env_overrides_file_witness :
    buildLookup
      (p2poolSources true [("stratum.port", "3333")] [("stratum.port", "9999")])
      "stratum.port" = some "9999" :=
  c4_env_overrides_file true [("stratum.port", "3333")]
    [("stratum.port", "9999")] "stratum.port" "9999" rfl

end P2Pool

namespace Daemon

/-- C3 counterexample: with a one-entry schema and a failing build (a file
that exists but is not parseable INI), the daemon resolver returns the
schema-default entry list with enabled false — a successful, default-valued
result, not an error. -/
theorem c3_counterexample :
    parse_config [⟨"txindex", "0"⟩] (.error "invalid INI syntax") []
      = [⟨"txindex", "0", some ⟨"txindex", "0"⟩, false⟩] := rfl

/-- C3 amended: when the config-rs build of the daemon file fails, the
resolver silently returns the full schema-default entry list (every entry
carrying its schema default with enabled false) instead of terminating
with an error; no branch of the function returns an error. -/
theorem c3_amended_default_list (schemaList : List SchemaEntry) (msg : String)
    (configKeys : List String) :
    parse_config schemaList (.error msg) configKeys
      = schemaList.map (fun sch => ⟨sch.key, sch.default, some sch, false⟩) :=
  rfl

end Daemon

namespace P2Pool

/-- C5: the pool-service resolver returns the distinct domain-mismatch
error exactly when the raw file text contains none of the seven
recognized section markers and no environment variable carries the
P2POOL prefix; no outcome of the later pipeline stages can produce that
error kind, and in the mismatch case no entry list is produced. -/
theorem c5_domain_mismatch (check : AddrCheck) (pubkeyValid : String → Bool)
    (rawText : String) (env : List (String × String))
    (buildResult : Except String Unit) (deser : Except String P2PoolConfig) :
    (parse_config check pubkeyValid rawText env buildResult deser
        = .error .notP2pool)
      ↔ (envOverridePresent env = false
         ∧ containsSub rawText "[stratum]" = false
         ∧ containsSub rawText "[store]" = false
         ∧ containsSub rawText "[network]" = false
         ∧ containsSub rawText "[logging]" = false
         ∧ containsSub rawText "[api]" = false
         ∧ containsSub rawText "[miner]" = false
         ∧ containsSub rawText "[bitcoinrpc]" = false) := by
  have hexp : (looksLikeP2pool rawText (envOverridePresent env) = false)
      ↔ (envOverridePresent env = false
         ∧ containsSub rawText "[stratum]" = false
         ∧ containsSub rawText "[store]" = false
         ∧ containsSub rawText "[network]" = false
         ∧ containsSub rawText "[logging]" = false
         ∧ containsSub rawText "[api]" = false
         ∧ containsSub rawText "[miner]" = false
         ∧ containsSub rawText "[bitcoinrpc]" = false) := by
    simp [looksLikeP2pool, and_assoc]
  rw [← hexp]
  unfold parse_config
  cases hl : looksLikeP2pool rawText (envOverridePresent env) with
  | false => simp
  | true =>
    simp only [Bool.not_true, Bool.false_eq_true, if_false]
    constructor
    · intro h
      exfalso
      cases buildResult with
      | error m => simp at h
      | ok u =>
        cases deser with
        | error m => simp at h
        | ok p =>
          cases hs : (match p.stratum with
              | some st => (st.parse check).map (fun _ => ())
              | none => Except.ok ()) with
          | error m => simp [hs] at h
          | ok u2 => simp [hs] at h
    · intro h
      simp at h

end P2Pool

namespace Daemon

/-- C6: resolution across scopes is a first-match search over the fixed
order unscoped/global, main, test, signet, regtest; in particular a
schema key absent from the global and main scopes but present under test
resolves to the test value with enabled true. -/
theorem c6_scope_order :
    (∀ (cfg : DCfg) (key : String) (sects : List String),
        resolveAcross cfg key sects
          = sects.findSome? (fun sect => resolveInSection cfg (lookupKeyFor sect key)))
    ∧ (∀ (cfg : DCfg) (sch : SchemaEntry) (val : String),
        resolveInSection cfg (lookupKeyFor "" sch.key) = none →
        resolveInSection cfg (lookupKeyFor "main" sch.key) = none →
        resolveInSection cfg (lookupKeyFor "test" sch.key) = some val →
        schemaEntryFor cfg sch = ⟨sch.key, val, some sch, true⟩) := by
  constructor
  · intro cfg key sects
    induction sects with
    | nil => rfl
    | cons s rest ih =>
      rw [List.findSome?_cons]
      cases h : resolveInSection cfg (lookupKeyFor s key) with
      | none => simpa [resolveAcross, h] using ih
      | some v => simp [resolveAcross, h]
  · intro cfg sch val h1 h2 h3
    simp [schemaEntryFor, dSections, resolveAcross, h1, h2, h3]

/-- C6 witness: the key maxconnections set to 5 only under the test scope
resolves to "5" with enabled true, although main precedes test. -/
theorem c6_scope_order_witness :
    schemaEntryFor [("test.maxconnections", CVal.int 5)] ⟨"maxconnections", "125"⟩
      = ⟨"maxconnections", "5", some ⟨"maxconnections", "125"⟩, true⟩ :=
  c6_scope_order.2 [("test.maxconnections", CVal.int 5)]
    ⟨"maxconnections", "125"⟩ "5" rfl rfl rfl

/-- C7 counterexample: for the schema-less key foo holding the raw string
"yes", the code displays the raw string "yes" (its get_string attempt
comes first and succeeds), while the claimed bool-then-int-then-float
order would have the boolean parse win and display "1". -/
theorem c7_counterexample :
    unknownValue [("foo", CVal.str "yes")] "foo" = "yes"
    ∧ specUnknownDisplay "yes" = "1"
    ∧ ("yes" : String) ≠ "1" := by
  refine ⟨rfl, by decide, by decide⟩

/-- C7 amended: the display value of a schema-less daemon key is decided
by attempting string coercion first, then boolean, then integer, then
float, falling back to the empty string; since string coercion succeeds
on every scalar raw value, a present key displays its string coercion and
an absent key displays the empty string. -/
theorem c7_amended_string_first :
    (∀ (cfg : DCfg) (k : String) (v : CVal),
        getVal cfg k = some v →
        ∃ s, getString v = some s ∧ unknownValue cfg k = s)
    ∧ (∀ (cfg : DCfg) (k : String),
        getVal cfg k = none → unknownValue cfg k = "") := by
  constructor
  · intro cfg k v h
    cases v with
    | str s =>
      exact ⟨s, rfl, by simp [unknownValue, resolveInSection, h, getString]⟩
    | bool b =>
      exact ⟨toString b, rfl, by simp [unknownValue, resolveInSection, h, getString]⟩
    | int i =>
      exact ⟨toString i, rfl, by simp [unknownValue, resolveInSection, h, getString]⟩
    | float lit =>
      exact ⟨lit, rfl, by simp [unknownValue, resolveInSection, h, getString]⟩
  · intro cfg k h
    simp [unknownValue, resolveInSection, h]

/-- C7 amended witness: the present key foo with raw string "yes"
displays its string coercion. -/
theorem c7_amended_witness :
    ∃ s, getString (CVal.str "yes") = some s
      ∧ unknownValue [("foo", CVal.str "yes")] "foo" = s :=
  c7_amended_string_first.1 [("foo", CVal.str "yes")] "foo" (CVal.str "yes") rfl

end Daemon

namespace P2Pool

/-- C1 counterexample: solo_address is an address-shaped stratum field,
yet a config whose solo_address is present and rejected by the address
check still parses successfully, and the unvalidated string is carried
into the flattened output unchanged. -/
theorem c1_counterexample :
    exSoloConfig.solo_address = some "invalid"
    ∧ exCheck "invalid" exSoloConfig.network = none
    ∧ (exSoloConfig.parse exCheck).isOk = true
    ∧ (⟨"stratum", "solo_address", "invalid", false⟩ : ConfigEntry)
        ∈ stratumEntries true (some exSoloConfig) := by
  refine ⟨rfl, by decide, by decide, by decide⟩

/-- C1 amended: for the three validated address fields bootstrap_address,
donation_address and fee_address, a present string rejected by the
network-qualified address check makes StratumConfig::parse fail, and for
every present address field (solo_address included) the flattened entry
carries the input string unchanged with is_default false; solo_address is
excluded from validation. -/
theorem c1_amended :
    (∀ (check : AddrCheck) (c : StratumConfig) (s : String),
        c.bootstrap_address = some s → check s c.network = none →
        ∃ msg, c.parse check = .error msg)
    ∧ (∀ (check : AddrCheck) (c : StratumConfig) (s : String),
        c.donation_address = some s → check s c.network = none →
        ∃ msg, c.parse check = .error msg)
    ∧ (∀ (check : AddrCheck) (c : StratumConfig) (s : String),
        c.fee_address = some s → check s c.network = none →
        ∃ msg, c.parse check = .error msg)
    ∧ (∀ (pk : String → Bool) (p : P2PoolConfig) (st : StratumConfig)
        (nsp ssp lsp : Bool) (s : String),
        p.stratum = some st → st.bootstrap_address = some s →
        (⟨"stratum", "bootstrap_address", s, false⟩ : ConfigEntry)
          ∈ flatten pk p nsp ssp lsp)
    ∧ (∀ (pk : String → Bool) (p : P2PoolConfig) (st : StratumConfig)
        (nsp ssp lsp : Bool) (s : String),
        p.stratum = some st → st.donation_address = some s →
        (⟨"stratum", "donation_address", s, false⟩ : ConfigEntry)
          ∈ flatten pk p nsp ssp lsp)
    ∧ (∀ (pk : String → Bool) (p : P2PoolConfig) (st : StratumConfig)
        (nsp ssp lsp : Bool) (s : String),
        p.stratum = some st → st.fee_address = some s →
        (⟨"stratum", "fee_address", s, false⟩ : ConfigEntry)
          ∈ flatten pk p nsp ssp lsp)
    ∧ (∀ (pk : String → Bool) (p : P2PoolConfig) (st : StratumConfig)
        (nsp ssp lsp : Bool) (s : String),
        p.stratum = some st → st.solo_address = some s →
        (⟨"stratum", "solo_address", s, false⟩ : ConfigEntry)
          ∈ flatten pk p nsp ssp lsp) := by
  refine ⟨?_, ?_, ?_, ?_, ?_, ?_, ?_⟩
  · intro check c s hb hc
    cases hsig : (match c.pool_signature with
        | some sig => decide (sig.length > MAX_POOL_SIGNATURE_LENGTH)
        | none => false) with
    | true =>
      exact ⟨"Pool signature exceeds max length",
        by simp [StratumConfig.parse, hsig]⟩
    | false =>
      exact ⟨"Invalid bootstrap_address",
        by simp [StratumConfig.parse, hsig, checkOptAddr, hb, hc]⟩
  · intro check c s hd hc
    cases hsig : (match c.pool_signature with
        | some sig => decide (sig.length > MAX_POOL_SIGNATURE_LENGTH)
        | none => false) with
    | true =>
      exact ⟨"Pool signature exceeds max length",
        by simp [StratumConfig.parse, hsig]⟩
    | false =>
      cases hboot : checkOptAddr check c.network c.bootstrap_address
          "Invalid bootstrap_address" with
      | error e =>
        exact ⟨e, by simp [StratumConfig.parse, hsig, hboot]⟩
      | ok b =>
        have hdon : checkOptAddr check c.network c.donation_address
            "Invalid donation_address" = .error "Invalid donation_address" := by
          simp [checkOptAddr, hd, hc]
        exact ⟨"Invalid donation_address",
          by simp [StratumConfig.parse, hsig, hboot, hdon]⟩
  · intro check c s hf hc
    cases hsig : (match c.pool_signature with
        | some sig => decide (sig.length > MAX_POOL_SIGNATURE_LENGTH)
        | none => false) with
    | true =>
      exact ⟨"Pool signature exceeds max length",
        by simp [StratumConfig.parse, hsig]⟩
    | false =>
      cases hboot : checkOptAddr check c.network c.bootstrap_address
          "Invalid bootstrap_address" with
      | error e =>
        exact ⟨e, by simp [StratumConfig.parse, hsig, hboot]⟩
      | ok b =>
        cases hdon : checkOptAddr check c.network c.donation_address
            "Invalid donation_address" with
        | error e =>
          exact ⟨e, by simp [StratumConfig.parse, hsig, hboot, hdon]⟩
        | ok d =>
          cases hdep : (c.donation.isSome && d.isNone) with
          | true =>
            exact ⟨"donation_address is required when donation is set",
              by simp [StratumConfig.parse, hsig, hboot, hdon, hdep]⟩
          | false =>
            have hfee : checkOptAddr check c.network c.fee_address
                "Invalid fee_address" = .error "Invalid fee_address" := by
              simp [checkOptAddr, hf, hc]
            exact ⟨"Invalid fee_address",
              by simp [StratumConfig.parse, hsig, hboot, hdon, hdep, hfee]⟩
  · intro pk p st nsp ssp lsp s hp hb
    simp [flatten, hp, stratumEntries, List.mem_append, mem_opt_iff, hb]
  · intro pk p st nsp ssp lsp s hp hd
    simp [flatten, hp, stratumEntries, List.mem_append, mem_opt_iff, hd]
  · intro pk p st nsp ssp lsp s hp hf
    simp [flatten, hp, stratumEntries, List.mem_append, mem_opt_iff, hf]
  · intro pk p st nsp ssp lsp s hp hs
    simp [flatten, hp, stratumEntries, List.mem_append, mem_opt_iff, hs]

/-- C1 amended witness: a rejected bootstrap_address fails the parse, and
a present bootstrap_address reaches the flattened output unchanged. -/
theorem c1_amended_witness :
    (∃ msg, exBootConfig.parse exCheck = Except.error msg)
    ∧ (⟨"stratum", "bootstrap_address", "invalid", false⟩ : ConfigEntry)
        ∈ flatten (fun _ => true) exBootPool true true true :=
  ⟨c1_amended.1 exCheck exBootConfig "invalid" rfl (by decide),
   c1_amended.2.2.2.1 (fun _ => true) exBootPool exBootConfig true true true
     "invalid" rfl rfl⟩

end P2Pool

namespace P2Pool

/-- An entry of an opt block inherits the block's default flag. -/
theorem mem_opt_is_default {e : ConfigEntry} {s k : String} {v : Option String}
    {d : Bool} (h : e ∈ opt s k v d) : e.is_default = d := by
  rcases mem_opt_iff.mp h with ⟨x, hx, rfl⟩
  rfl

/-- With the network section present every network entry is non-default. -/
theorem networkEntries_present (n : NetworkConfig) (e : ConfigEntry)
    (he : e ∈ networkEntries n true) : e.is_default = false := by
  simp only [networkEntries, Bool.not_true, Bool.false_and, List.mem_cons,
    List.not_mem_nil, or_false] at he
  rcases he with rfl | rfl | rfl | rfl | rfl | rfl | rfl | rfl | rfl | rfl |
    rfl | rfl | rfl | rfl | rfl | rfl <;> rfl

/-- With the stratum section present every stratum entry is non-default. -/
theorem stratumEntries_present (o : Option StratumConfig) (e : ConfigEntry)
    (he : e ∈ stratumEntries true o) : e.is_default = false := by
  cases o with
  | none => simp [stratumEntries] at he
  | some st =>
    simp only [stratumEntries, Bool.not_true, Bool.false_and,
      List.mem_append, List.mem_cons, List.not_mem_nil, or_false] at he
    repeat' rcases he with he | he
    all_goals first
      | rfl
      | exact mem_opt_is_default he

/-- With the logging section present every logging entry is non-default. -/
theorem loggingEntries_present (l : LoggingConfig) (e : ConfigEntry)
    (he : e ∈ loggingEntries l true) : e.is_default = false := by
  simp only [loggingEntries, Bool.not_true, Bool.false_and,
    List.mem_append, List.mem_cons, List.not_mem_nil, or_false] at he
  rcases he with h | rfl | rfl
  · exact mem_opt_is_default h
  · rfl
  · rfl

/-- C2 counterexample: a file whose store section is explicitly present
and restates the default path still flattens the store path entry with
is_default true — the store block never consults section presence, so the
explicitly-confirmed value is collapsed with the inherited case. -/
theorem c2_counterexample :
    containsSub exStoreText "[store]" = true
    ∧ (∃ l, parse_config (fun _ _ => none) (fun _ => true) exStoreText []
          (.ok ()) (.ok exStoreConfig) = .ok l
        ∧ (⟨"store", "path", "./store.db", true⟩ : ConfigEntry) ∈ l) := by
  refine ⟨by decide,
    ⟨flatten (fun _ => true) exStoreConfig
      (containsSub exStoreText "[network]") (containsSub exStoreText "[stratum]")
      (containsSub exStoreText "[logging]"), rfl, by decide⟩⟩

/-- C2 amended: is_default = true forces section absence only for the
network, stratum and logging blocks; the store, bitcoinrpc and api blocks
compute is_default from the value-equals-default test alone, ignoring
section presence, and the miner block (like every secret, port and
optional entry) is always non-default. -/
theorem c2_amended :
    (∀ (n : NetworkConfig) (nsp : Bool) (e : ConfigEntry),
        e ∈ networkEntries n nsp → e.is_default = true → nsp = false)
    ∧ (∀ (ssp : Bool) (o : Option StratumConfig) (e : ConfigEntry),
        e ∈ stratumEntries ssp o → e.is_default = true → ssp = false)
    ∧ (∀ (l : LoggingConfig) (lsp : Bool) (e : ConfigEntry),
        e ∈ loggingEntries l lsp → e.is_default = true → lsp = false)
    ∧ (∀ s : StoreConfig,
        (storeEntries (some s)).map (fun e => e.is_default)
          = [s.path == "./store.db", s.background_task_frequency_hours == 1,
             s.pplns_ttl_days == 7])
    ∧ (∀ b : BitcoinRpcConfig,
        (bitcoinrpcEntries (some b)).map (fun e => e.is_default)
          = [b.url == "http://127.0.0.1:38332", b.username == "p2pool", false])
    ∧ (∀ (a : ApiConfig) (e : ConfigEntry), e ∈ apiEntries (some a) →
        e.is_default = (decide (e.key = "hostname") && (a.hostname == "127.0.0.1")))
    ∧ (∀ (pk : String → Bool) (m? : Option MinerConfig) (e : ConfigEntry),
        e ∈ minerEntries pk m? → e.is_default = false) := by
  refine ⟨?_, ?_, ?_, ?_, ?_, ?_, ?_⟩
  · intro n nsp e he hd
    cases nsp with
    | false => rfl
    | true => exact absurd hd (by simp [networkEntries_present n e he])
  · intro ssp o e he hd
    cases ssp with
    | false => rfl
    | true => exact absurd hd (by simp [stratumEntries_present o e he])
  · intro l lsp e he hd
    cases lsp with
    | false => rfl
    | true => exact absurd hd (by simp [loggingEntries_present l e he])
  · intro s
    rfl
  · intro b
    rfl
  · intro a e he
    simp only [apiEntries, List.mem_append, List.mem_cons, List.not_mem_nil,
      or_false] at he
    repeat' rcases he with he | he
    all_goals first
      | simp
      | (rcases mem_opt_iff.mp he with ⟨x, hx, rfl⟩; simp)
  · intro pk m? e he
    cases m? with
    | none => simp [minerEntries] at he
    | some m =>
      simp only [minerEntries] at he
      rcases hv : pk m.pubkey with _ | _ <;> rw [hv] at he <;> simp at he <;>
        simp [he]

/-- C2 amended witness: with the stratum section absent the default
hostname entry is marked default, and the theorem instance discharges its
membership and default hypotheses on that concrete entry. -/
theorem c2_amended_witness : (false = false) ∧ (true = true) :=
  ⟨c2_amended.2.1 false (some defaultStratumConfig)
      ⟨"stratum", "hostname", "0.0.0.0", true⟩ (by decide) rfl,
   rfl⟩

end P2Pool

namespace P2Pool

/-- The bitcoinrpc block depends only on the secret-insensitive part of
the section. -/
theorem bitcoinrpcEntries_congr :
    ∀ {b? b'? : Option BitcoinRpcConfig}, rpcSecretEquiv b? b'? →
      bitcoinrpcEntries b? = bitcoinrpcEntries b'?
  | none, none, _ => rfl
  | some b, some b', h => by
    obtain ⟨h1, h2, h3⟩ := h
    simp [bitcoinrpcEntries, h1, h2, h3]
  | none, some _, h => h.elim
  | some _, none, h => h.elim

/-- The api block depends only on the secret-insensitive part of the
section. -/
theorem apiEntries_congr :
    ∀ {a? a'? : Option ApiConfig}, apiSecretEquiv a? a'? →
      apiEntries a? = apiEntries a'?
  | none, none, _ => rfl
  | some a, some a', h => by
    obtain ⟨h1, h2, h3, h4⟩ := h
    cases hta : a.auth_token with
    | none =>
      cases hta' : a'.auth_token with
      | none => simp [apiEntries, h1, h2, h3, hta, hta']
      | some t' => rw [hta, hta'] at h4; simp at h4
    | some t =>
      cases hta' : a'.auth_token with
      | none => rw [hta, hta'] at h4; simp at h4
      | some t' => simp [apiEntries, h1, h2, h3, hta, hta']
  | none, some _, h => h.elim
  | some _, none, h => h.elim

/-- C8 counterexample: an api auth_token that is present but empty is
rendered as the fixed mask "*****", not as the empty-sentinel "<empty>";
no api entry renders the empty-sentinel. -/
theorem c8_counterexample :
    exApiEmptyToken.auth_token = some ""
    ∧ (⟨"api", "auth_token", "*****", false⟩ : ConfigEntry)
        ∈ apiEntries (some exApiEmptyToken)
    ∧ (∀ e ∈ apiEntries (some exApiEmptyToken), e.value ≠ "<empty>") := by
  refine ⟨rfl, by decide, by decide⟩

/-- C8 amended: secrets are never emitted in plaintext form — the
bitcoinrpc password entry renders "<empty>" when empty and "*****"
otherwise, while an api auth_token entry renders "*****" whenever the
token is present, its content (empty included) ignored; consequently two
resolved configs that differ only in secret content (passwords empty
together or non-empty together, tokens present together or absent
together) flatten to identical entry lists. -/
theorem c8_secret_masking :
    (∀ (b : BitcoinRpcConfig) (e : ConfigEntry),
        e ∈ bitcoinrpcEntries (some b) → e.key = "password" →
        e.value = (if strIsEmpty b.password then "<empty>" else "*****"))
    ∧ (∀ (a : ApiConfig) (e : ConfigEntry),
        e ∈ apiEntries (some a) → e.key = "auth_token" → e.value = "*****")
    ∧ (∀ (pk : String → Bool) (p p' : P2PoolConfig) (nsp ssp lsp : Bool),
        p'.network = p.network → p'.store = p.store → p'.stratum = p.stratum →
        p'.miner = p.miner → p'.logging = p.logging →
        rpcSecretEquiv p.bitcoinrpc p'.bitcoinrpc →
        apiSecretEquiv p.api p'.api →
        flatten pk p nsp ssp lsp = flatten pk p' nsp ssp lsp) := by
  refine ⟨?_, ?_, ?_⟩
  · intro b e he hk
    simp only [bitcoinrpcEntries, List.mem_cons, List.not_mem_nil, or_false] at he
    repeat' rcases he with he | he
    all_goals first
      | rfl
      | simp at hk
  · intro a e he hk
    cases hta : a.auth_token <;> cases htu : a.auth_user <;>
      simp only [apiEntries, hta, htu, Option.map_some', Option.map_none', opt,
        List.mem_append, List.mem_cons, List.not_mem_nil, or_false,
        List.append_nil, List.nil_append] at he <;>
      repeat' rcases he with he | he
    all_goals first
      | rfl
      | simp at hk
  · intro pk p p' nsp ssp lsp hn hs hst hm hl hb ha
    have hrpc := bitcoinrpcEntries_congr hb
    have hapi := apiEntries_congr ha
    unfold flatten
    rw [hn, hs, hst, hm, hl, ← hrpc, ← hapi]

/-- C8 witness: two configs differing only in password and token content
flatten identically. -/
theorem c8_secret_masking_witness :
    flatten (fun _ => true) exSecretA false false false
      = flatten (fun _ => true) exSecretB false false false :=
  c8_secret_masking.2.2 (fun _ => true) exSecretA exSecretB false false false
    rfl rfl rfl rfl rfl ⟨rfl, rfl, by decide⟩ ⟨rfl, rfl, rfl, rfl⟩

/-- C9: a present miner section whose pubkey fails the compressed-key
parse does not abort the load — with every other pipeline stage
succeeding, parse_config still returns Ok and the output substitutes the
sentinel entry for the pubkey. -/
theorem c9_invalid_pubkey_degrades (check : AddrCheck)
    (pubkeyValid : String → Bool) (rawText : String)
    (env : List (String × String)) (p : P2PoolConfig) (m : MinerConfig)
    (hlooks : looksLikeP2pool rawText (envOverridePresent env) = true)
    (hstrat : ∀ st, p.stratum = some st → ∃ st', st.parse check = .ok st')
    (hm : p.miner = some m) (hpk : pubkeyValid m.pubkey = false) :
    ∃ l, parse_config check pubkeyValid rawText env (.ok ()) (.ok p) = .ok l
      ∧ (⟨"miner", "pubkey", "<invalid pubkey>", false⟩ : ConfigEntry) ∈ l := by
  refine ⟨flatten pubkeyValid p (containsSub rawText "[network]")
    (containsSub rawText "[stratum]") (containsSub rawText "[logging]"), ?_, ?_⟩
  · cases hst : p.stratum with
    | none => simp [parse_config, hlooks, hst]
    | some st =>
      obtain ⟨st', hok⟩ := hstrat st hst
      simp [parse_config, hlooks, hst, hok, Except.map]
  · simp [flatten, List.mem_append, minerEntries, hm, hpk]

/-- C9 witness: a miner-only config with an unparseable pubkey loads
successfully and shows the sentinel entry. -/
theorem c9_invalid_pubkey_degrades_witness :
    ∃ l, parse_config (fun _ _ => none) (fun _ => false) exMinerText []
        (.ok ()) (.ok exMinerConfig) = .ok l
      ∧ (⟨"miner", "pubkey", "<invalid pubkey>", false⟩ : ConfigEntry) ∈ l :=
  c9_invalid_pubkey_degrades (fun _ _ => none) (fun _ => false) exMinerText []
    exMinerConfig ⟨"nonsense"⟩ (by decide) (fun st hst => nomatch hst) rfl rfl

end P2Pool
